import Mathlib

/-!
crdt-experiment: the document replication engine.

A shallow embedding of `backend/crdt/crdt.go`, `backend/models/models.go`,
`backend/docmanager/docmanager.go` and the receive loop of `backend/main.go`.

Conventions of the embedding

* A Go `string` is a Lean `String` and `[]rune(s)` is `s.data`; `string(rs)` is
  `String.mk rs`.  Every string that reaches the engine has been decoded by
  `encoding/json`, was produced by `GetText`, or is read back from a row the
  engine wrote, so it is well-formed UTF-8 and the two conversions are the ones
  between a string and its sequence of code points.
* A Go `int` / `int64` is an `Int`.  The only arithmetic is
  `op.Position + deleteCount` with `0 ≤ op.Position < len(c.text)` and
  `deleteCount` the length of a rune slice; both are lengths of slices held in
  memory, so the sum stays far below `2^63`.
* A slice expression is checked: `s[:hi]` and `s[lo:]` yield `none` (the
  runtime panic) unless `0 ≤ hi ≤ len s`, resp. `0 ≤ lo ≤ len s`.  Go admits
  `hi ≤ cap s`; the bound used here is the stricter one.
* `append(a, b...)` is list append.  In both uses in `ApplyOperation` the
  result is the elements of `a` followed by those of `b`: in the insert case
  `b` lives in a fresh array, in the delete case the copy is a forward
  `memmove` inside one array.
* The embedding is sequential: one call runs at a time and the mutexes are
  omitted.  A call returns the state it leaves behind together with the calls
  it made to its collaborators (store queries, `WriteJSON`, the hand-off to
  `models.InsertOperation`).
* A Go map is an association list (`GoMap`); the order of the list stands for
  whatever iteration order the runtime picks.
-/

namespace CrdtExperiment

/-! ## crdt/crdt.go -/

/-- Go `type OperationType string`. -/
abbrev OperationType := String

def OpInsert : OperationType := "insert"
def OpDelete : OperationType := "delete"
def OpCursor : OperationType := "cursor"

/-- Go `type Operation struct`; the field `Type` is spelled `Typ`. -/
structure Operation where
  Typ : OperationType
  DocID : String
  Position : Int
  Value : String
  OperationID : String
  Source : String
  Timestamp : Int
  CursorPos : Int
  UserColor : String
  deriving DecidableEq, Repr

/-- Go `type CRDT struct`: the text as a slice of runes. -/
structure CRDT where
  text : List Char
  deriving DecidableEq, Repr

/-- Go `NewCRDT`. -/
def NewCRDT : CRDT := { text := [] }

/-- Checked slice expression `s[:hi]`. -/
def sliceTo {α : Type} (s : List α) (hi : Int) : Option (List α) :=
  if 0 ≤ hi ∧ hi ≤ (s.length : Int) then some (s.take hi.toNat) else none

/-- Checked slice expression `s[lo:]`. -/
def sliceFrom {α : Type} (s : List α) (lo : Int) : Option (List α) :=
  if 0 ≤ lo ∧ lo ≤ (s.length : Int) then some (s.drop lo.toNat) else none

/-- Go `(*CRDT).ApplyOperation`.  `none` is a runtime panic of a slice
expression; the receiver after the call is the returned value. -/
def ApplyOperation (c : CRDT) (op : Operation) : Option CRDT :=
  if op.Typ = OpInsert then
    -- if op.Position < 0 { op.Position = 0 }
    let p : Int := if op.Position < 0 then 0 else op.Position
    -- if op.Position > len(c.text) { op.Position = len(c.text) }
    let p : Int := if p > (c.text.length : Int) then (c.text.length : Int) else p
    let insertRunes := op.Value.data
    -- append(c.text[:op.Position], append(insertRunes, c.text[op.Position:]...)...)
    match sliceTo c.text p, sliceFrom c.text p with
    | some front, some back => some { text := front ++ (insertRunes ++ back) }
    | _, _ => none
  else if op.Typ = OpDelete then
    if op.Position < 0 ∨ op.Position ≥ (c.text.length : Int) then
      some c
    else
      -- deleteCount := len([]rune(op.Value))
      let deleteCount : Int := (op.Value.data.length : Int)
      let deleteCount : Int :=
        if op.Position + deleteCount > (c.text.length : Int) then
          (c.text.length : Int) - op.Position
        else deleteCount
      -- append(c.text[:op.Position], c.text[op.Position+deleteCount:]...)
      match sliceTo c.text op.Position, sliceFrom c.text (op.Position + deleteCount) with
      | some front, some back => some { text := front ++ back }
      | _, _ => none
  else if op.Typ = OpCursor then
    some c
  else
    -- no case of the switch matches
    some c

/-- Go `(*CRDT).GetText`. -/
def GetText (c : CRDT) : String := String.mk c.text

/-! ## Go maps -/

/-- A Go `map[κ]ν`: an association list in which `store` keeps one entry per key. -/
abbrev GoMap (κ ν : Type) := List (κ × ν)

namespace GoMap

/-- The keys of `m`, in iteration order. -/
def keys {κ ν : Type} (m : GoMap κ ν) : List κ := m.map Prod.fst

/-- Go `v, ok := m[k]`. -/
def lookup {κ ν : Type} [DecidableEq κ] (m : GoMap κ ν) (k : κ) : Option ν :=
  (m.find? (fun e => decide (e.1 = k))).map Prod.snd

/-- Go `m[k] = v`. -/
def store {κ ν : Type} [DecidableEq κ] (m : GoMap κ ν) (k : κ) (v : ν) : GoMap κ ν :=
  (k, v) :: m.filter (fun e => decide (e.1 ≠ k))

/-- Go `delete(m, k)`. -/
def remove {κ ν : Type} [DecidableEq κ] (m : GoMap κ ν) (k : κ) : GoMap κ ν :=
  m.filter (fun e => decide (e.1 ≠ k))

end GoMap

/-! ## models/models.go -/

/-- Go `error` values seen by the engine: the sentinel `models.ErrNotFound`, or
an error of `database/sql` (connection lost, scan failure, ...). -/
inductive Error where
  | ErrNotFound
  | driver (msg : String)
  deriving DecidableEq, Repr

/-- Go `type SnapshotRecord struct`. -/
structure SnapshotRecord where
  DocID : String
  Revision : Int
  Content : String
  deriving DecidableEq, Repr

/-- Go `type OperationRecord struct`. -/
structure OperationRecord where
  DocID : String
  OperationID : String
  OpType : String
  Position : Int
  Value : String
  Timestamp : Int
  Source : String
  deriving DecidableEq, Repr

/-- The two read queries issued against the database. -/
inductive Query where
  | latestSnapshot (docID : String)
  | operationsSince (docID : String) (minRevision : Int)
  deriving DecidableEq, Repr

/-- The package variable `db`: the rows of the two tables, for each query the
`database/sql` failure (if any) that the caller gets to see (`db.Query` or
`Scan` returning an error), and for each query the number of rows delivered
before `rows.Next()` stops on a failure of the stream (if it does). -/
structure DB where
  doc_snapshots : List SnapshotRecord
  doc_operations : List OperationRecord
  fault : Query → Option String
  streamBreak : Query → Option Nat := fun _ => none

/-- The row chosen by `ORDER BY revision DESC LIMIT 1`: one of greatest revision
(the first such row when several tie). -/
def latestRow : List SnapshotRecord → Option SnapshotRecord
  | [] => none
  | r :: rest =>
    match latestRow rest with
    | none => some r
    | some b => if b.Revision > r.Revision then some b else some r

/-- Go `models.GetLatestSnapshot`: the pair `(*SnapshotRecord, error)`. -/
def GetLatestSnapshot (db : DB) (docID : String) : Option SnapshotRecord × Option Error :=
  match db.fault (Query.latestSnapshot docID) with
  | some msg => (none, some (Error.driver msg))
  | none =>
    match latestRow (db.doc_snapshots.filter (fun r => decide (r.DocID = docID))) with
    | none => (none, some Error.ErrNotFound)
    | some rec => (some rec, none)

/-- Go `(*SnapshotRecord).ToCRDT`. -/
def ToCRDT (sr : SnapshotRecord) : Option CRDT :=
  let c := NewCRDT
  let op : Operation :=
    { Typ := OpInsert, DocID := sr.DocID, Position := 0, Value := sr.Content,
      OperationID := "", Source := "snapshot", Timestamp := sr.Revision,
      CursorPos := 0, UserColor := "" }
  ApplyOperation c op

/-- Go `(*OperationRecord).ToCRDTOperation`. -/
def ToCRDTOperation (o : OperationRecord) : Operation :=
  { Typ := o.OpType, DocID := o.DocID, Position := o.Position, Value := o.Value,
    OperationID := o.OperationID, Source := o.Source, Timestamp := o.Timestamp,
    CursorPos := 0, UserColor := "" }

/-- Go `models.GetOperationsSince`: the pair `([]OperationRecord, error)`.  The
rows are those with `doc_id = $1 AND timestamp > $2`, `ORDER BY timestamp ASC`
(rows of equal timestamp keep their table order).  An error of `db.Query` or
of `rows.Scan` is returned with a nil slice; when `rows.Next()` ends the loop
early the rows read so far are returned with a nil error, since `rows.Err()` is
not consulted. -/
def GetOperationsSince (db : DB) (docID : String) (minRevision : Int) :
    List OperationRecord × Option Error :=
  match db.fault (Query.operationsSince docID minRevision) with
  | some msg => ([], some (Error.driver msg))
  | none =>
    let rows :=
      List.insertionSort (fun a b : OperationRecord => a.Timestamp ≤ b.Timestamp)
        (db.doc_operations.filter
          (fun r => decide (r.DocID = docID ∧ r.Timestamp > minRevision)))
    match db.streamBreak (Query.operationsSince docID minRevision) with
    | none => (rows, none)
    | some n => (rows.take n, none)

/-! ## docmanager/docmanager.go -/

/-- Go `type PresenceInfo struct`. -/
structure PresenceInfo where
  UserID : String
  UserColor : String
  CursorPos : Int
  deriving DecidableEq, Repr

/-- A `*websocket.Conn`, identified by its address. -/
abbrev Conn := Nat

/-- Go `type DocumentSession struct`. -/
structure DocumentSession where
  DocID : String
  CRDT : CRDT
  Connections : GoMap Conn Bool
  Presence : GoMap String PresenceInfo
  deriving DecidableEq, Repr

/-- Go `NewDocumentSession`. -/
def NewDocumentSession (docID : String) : DocumentSession :=
  { DocID := docID, CRDT := NewCRDT, Connections := [], Presence := [] }

/-- Go `(*DocumentSession).AddConnection`. -/
def AddConnection (ds : DocumentSession) (conn : Conn) : DocumentSession :=
  { ds with Connections := ds.Connections.store conn true }

/-- Go `(*DocumentSession).RemoveConnection`. -/
def RemoveConnection (ds : DocumentSession) (conn : Conn) : DocumentSession :=
  { ds with Connections := ds.Connections.remove conn }

/-- The transport: the error (if any) returned by `conn.WriteJSON(operation)`. -/
abbrev Transport := Conn → Operation → Option String

/-- One call `conn.WriteJSON(payload)` and the error it returned; a returned
error is logged and nothing else is done with it. -/
structure WriteAttempt where
  conn : Conn
  payload : Operation
  err : Option String
  deriving DecidableEq, Repr

/-- The body of `for conn := range ds.Connections` in `BroadcastOperation`. -/
def broadcastLoop (tr : Transport) (operation : Operation) (sender : Conn) :
    List Conn → List WriteAttempt
  | [] => []
  | conn :: rest =>
    if conn = sender then
      broadcastLoop tr operation sender rest
    else
      { conn := conn, payload := operation, err := tr conn operation } ::
        broadcastLoop tr operation sender rest

/-- Go `(*DocumentSession).BroadcastOperation`: the calls to `WriteJSON` it makes. -/
def BroadcastOperation (tr : Transport) (ds : DocumentSession) (operation : Operation)
    (sender : Conn) : List WriteAttempt :=
  broadcastLoop tr operation sender ds.Connections.keys

/-- What one call of `ApplyAndBroadcast` does: the session afterwards, the
operations handed to `models.InsertOperation` (in the goroutine, whose result is
only logged), and the calls to `WriteJSON`. -/
structure ApplyOutcome where
  ds : DocumentSession
  persisted : List Operation
  writes : List WriteAttempt
  deriving DecidableEq, Repr

/-- Go `(*DocumentSession).ApplyAndBroadcast`; `none` is a panic of
`ApplyOperation`. -/
def ApplyAndBroadcast (tr : Transport) (ds : DocumentSession) (op : Operation)
    (sender : Conn) : Option ApplyOutcome :=
  -- 1. ds.CRDT.ApplyOperation(op); `op` is passed by value, so the clamping done
  --    inside is not seen here
  match ApplyOperation ds.CRDT op with
  | none => none
  | some c =>
    let ds := { ds with CRDT := c }
    -- 2. presence
    let ds :=
      if op.Typ = OpCursor then
        { ds with
          Presence := ds.Presence.store op.Source
            { UserID := op.Source, UserColor := op.UserColor, CursorPos := op.CursorPos } }
      else ds
    -- 3. go models.InsertOperation(op)   4. ds.BroadcastOperation(op, sender)
    some { ds := ds, persisted := [op], writes := BroadcastOperation tr ds op sender }

/-- Go `type DocManager struct`. -/
structure DocManager where
  docs : GoMap String DocumentSession
  deriving DecidableEq, Repr

/-- Go `NewDocManager`. -/
def NewDocManager : DocManager := { docs := [] }

/-- The loop `for _, op := range ops { ds.CRDT.ApplyOperation(op.ToCRDTOperation()) }`. -/
def replay (c : CRDT) : List OperationRecord → Option CRDT
  | [] => some c
  | r :: rest =>
    match ApplyOperation c (ToCRDTOperation r) with
    | none => none
    | some c1 => replay c1 rest

/-- What one call of `loadDocumentFromDB` does: the returned `error`, the
session afterwards and the queries issued. -/
structure LoadOutcome where
  err : Option Error
  ds : DocumentSession
  queries : List Query
  deriving DecidableEq, Repr

/-- Go `loadDocumentFromDB`; `none` is a panic (of `ApplyOperation`, or the nil
dereference `snapshot.Revision`). -/
def loadDocumentFromDB (db : DB) (ds : DocumentSession) : Option LoadOutcome :=
  let q1 := Query.latestSnapshot ds.DocID
  match GetLatestSnapshot db ds.DocID with
  | (_, some err) =>
    -- if err != nil { if err == models.ErrNotFound { return nil }; return err }
    if err = Error.ErrNotFound then
      some { err := none, ds := ds, queries := [q1] }
    else
      some { err := some err, ds := ds, queries := [q1] }
  | (none, none) =>
    -- `if snapshot != nil` is skipped, then `snapshot.Revision` dereferences nil
    none
  | (some snapshot, none) =>
    -- ds.CRDT = snapshot.ToCRDT()
    match ToCRDT snapshot with
    | none => none
    | some c =>
      let ds := { ds with CRDT := c }
      let q2 := Query.operationsSince ds.DocID snapshot.Revision
      match GetOperationsSince db ds.DocID snapshot.Revision with
      | (_, some err) => some { err := some err, ds := ds, queries := [q1, q2] }
      | (ops, none) =>
        match replay ds.CRDT ops with
        | none => none
        | some c1 => some { err := none, ds := { ds with CRDT := c1 }, queries := [q1, q2] }

/-- What one call of `EnsureSession` does: the returned pair
`(*DocumentSession, error)`, the registry afterwards and the queries issued. -/
structure EnsureOutcome where
  ds : Option DocumentSession
  err : Option Error
  dm : DocManager
  queries : List Query
  deriving DecidableEq, Repr

/-- Go `(*DocManager).EnsureSession`. -/
def EnsureSession (db : DB) (dm : DocManager) (docID : String) : Option EnsureOutcome :=
  match dm.docs.lookup docID with
  | some ds => some { ds := some ds, err := none, dm := dm, queries := [] }
  | none =>
    let ds := NewDocumentSession docID
    match loadDocumentFromDB db ds with
    | none => none
    | some r =>
      match r.err with
      | some err => some { ds := none, err := some err, dm := dm, queries := r.queries }
      | none =>
        some { ds := some r.ds, err := none,
               dm := { dm with docs := dm.docs.store docID r.ds }, queries := r.queries }

/-! ## main.go -/

/-- One turn of the receive loop of `wsHandler`: the operation read from the
connection gets `DocID`, `Source` and (for a cursor operation) `UserColor` from
the handler, and is passed to `ApplyAndBroadcast`. -/
def wsHandlerStep (tr : Transport) (docID userID userColor : String) (ds : DocumentSession)
    (op : Operation) (conn : Conn) : Option ApplyOutcome :=
  let op := { op with DocID := docID }
  let op := { op with Source := userID }
  let op := if op.Typ = OpCursor then { op with UserColor := userColor } else op
  ApplyAndBroadcast tr ds op conn

/-! ## Recovery as the specification words it -/

/-- Follows the spec's words (§4.4, no snapshot): the document starts empty and
all operation history records for the id, ordered ascending by `timestamp`, are
applied in order. -/
def specRecoverWithoutSnapshot (db : DB) (docID : String) : Option CRDT :=
  replay NewCRDT
    (List.insertionSort (fun a b : OperationRecord => a.Timestamp ≤ b.Timestamp)
      (db.doc_operations.filter (fun r => decide (r.DocID = docID))))

/-- Follows the words "replay each logged operation once": every operation
history record stored for the id is applied once, in ascending `timestamp`
order, to the text recovery starts from (the content of the latest snapshot,
the empty text when there is none). -/
def specReplayEveryRecord (db : DB) (docID : String) : Option CRDT :=
  let start : CRDT :=
    match latestRow (db.doc_snapshots.filter (fun r => decide (r.DocID = docID))) with
    | some snapshot => { text := snapshot.Content.data }
    | none => NewCRDT
  replay start
    (List.insertionSort (fun a b : OperationRecord => a.Timestamp ≤ b.Timestamp)
      (db.doc_operations.filter (fun r => decide (r.DocID = docID))))

/-! ## The offsets of the replica contract -/

/-- The insert offset of the contract: `0` if `p < 0`, `len` if `p > len`, else `p`. -/
def insertOffset (len : Nat) (p : Int) : Nat :=
  if p < 0 then 0 else if p > (len : Int) then len else p.toNat

/-- The delete count of the contract: `min n (len - p)`. -/
def deleteLength (len : Nat) (p : Nat) (n : Nat) : Nat := min n (len - p)

/-! ## Slices -/

theorem sliceTo_eq_some {α : Type} (s : List α) (hi : Int) (h0 : 0 ≤ hi)
    (h1 : hi ≤ (s.length : Int)) : sliceTo s hi = some (s.take hi.toNat) := by
  unfold sliceTo
  rw [if_pos ⟨h0, h1⟩]

theorem sliceFrom_eq_some {α : Type} (s : List α) (lo : Int) (h0 : 0 ≤ lo)
    (h1 : lo ≤ (s.length : Int)) : sliceFrom s lo = some (s.drop lo.toNat) := by
  unfold sliceFrom
  rw [if_pos ⟨h0, h1⟩]

/-- The clamped position of the insert branch, as an integer. -/
theorem insert_clamp_eq (len : Nat) (p : Int) :
    (if (if p < 0 then (0 : Int) else p) > (len : Int) then (len : Int)
      else (if p < 0 then (0 : Int) else p)) = ((insertOffset len p : Nat) : Int) := by
  unfold insertOffset
  split_ifs <;> omega

theorem ApplyOperation_insert_eq (c : CRDT) (op : Operation) (h : op.Typ = OpInsert) :
    ApplyOperation c op =
      some { text := c.text.take (insertOffset c.text.length op.Position) ++
              (op.Value.data ++ c.text.drop (insertOffset c.text.length op.Position)) } := by
  have hq : insertOffset c.text.length op.Position ≤ c.text.length := by
    unfold insertOffset
    split_ifs <;> omega
  unfold ApplyOperation
  rw [if_pos h]
  simp only [insert_clamp_eq]
  rw [sliceTo_eq_some _ _ (by omega) (by omega), sliceFrom_eq_some _ _ (by omega) (by omega)]
  simp

theorem ApplyOperation_delete_eq (c : CRDT) (op : Operation) (h : op.Typ = OpDelete) :
    ApplyOperation c op =
      if op.Position < 0 ∨ op.Position ≥ (c.text.length : Int) then some c
      else some { text := c.text.take op.Position.toNat ++
              c.text.drop (op.Position.toNat +
                deleteLength c.text.length op.Position.toNat op.Value.data.length) } := by
  have hne : ¬ op.Typ = OpInsert := by rw [h]; decide
  unfold ApplyOperation
  rw [if_neg hne, if_pos h]
  by_cases hr : op.Position < 0 ∨ op.Position ≥ (c.text.length : Int)
  · rw [if_pos hr, if_pos hr]
  · rw [if_neg hr, if_neg hr]
    have h0 : 0 ≤ op.Position := by omega
    have h1 : op.Position < (c.text.length : Int) := by omega
    have hk : (if op.Position + (op.Value.data.length : Int) > (c.text.length : Int)
        then (c.text.length : Int) - op.Position else (op.Value.data.length : Int))
        = ((deleteLength c.text.length op.Position.toNat op.Value.data.length : Nat) : Int) := by
      unfold deleteLength
      split_ifs <;> omega
    simp only [hk]
    have hle : op.Position.toNat +
        deleteLength c.text.length op.Position.toNat op.Value.data.length ≤ c.text.length := by
      unfold deleteLength
      omega
    rw [sliceTo_eq_some _ _ h0 (by omega), sliceFrom_eq_some _ _ (by omega) (by omega)]
    have ht : (op.Position + ((deleteLength c.text.length op.Position.toNat
        op.Value.data.length : Nat) : Int)).toNat = op.Position.toNat +
        deleteLength c.text.length op.Position.toNat op.Value.data.length := by
      omega
    simp only [ht]

theorem ApplyOperation_other_eq (c : CRDT) (op : Operation) (h1 : op.Typ ≠ OpInsert)
    (h2 : op.Typ ≠ OpDelete) : ApplyOperation c op = some c := by
  unfold ApplyOperation
  rw [if_neg h1, if_neg h2]
  split_ifs <;> rfl

/-- Every call of `ApplyOperation` returns. -/
theorem ApplyOperation_returns (c : CRDT) (op : Operation) :
    ∃ c1, ApplyOperation c op = some c1 := by
  by_cases h1 : op.Typ = OpInsert
  · exact ⟨_, ApplyOperation_insert_eq c op h1⟩
  · by_cases h2 : op.Typ = OpDelete
    · rw [ApplyOperation_delete_eq c op h2]
      split_ifs
      · exact ⟨_, rfl⟩
      · exact ⟨_, rfl⟩
    · exact ⟨_, ApplyOperation_other_eq c op h1 h2⟩

/-! ## The replica contract (crdt.go) -/

/-- C1: for every replica text `t`, position `p` and string `v`, an Insert
operation leaves the replica holding `t[0:q] ++ chars(v) ++ t[q:]`, where
`q = 0` if `p < 0`, `q = len(t)` if `p > len(t)` and `q = p` otherwise; the new
length is `len(t) + len(chars(v))`, and `GetText` returns that text. -/
theorem C1_insert_splices_at_clamped_offset (c : CRDT) (op : Operation)
    (h : op.Typ = OpInsert) :
    ApplyOperation c op =
        some { text := c.text.take (insertOffset c.text.length op.Position) ++ op.Value.data ++
                c.text.drop (insertOffset c.text.length op.Position) } ∧
      (c.text.take (insertOffset c.text.length op.Position) ++ op.Value.data ++
          c.text.drop (insertOffset c.text.length op.Position)).length
        = c.text.length + op.Value.data.length ∧
      (ApplyOperation c op).map GetText =
        some (String.mk (c.text.take (insertOffset c.text.length op.Position) ++ op.Value.data ++
                c.text.drop (insertOffset c.text.length op.Position))) ∧
      (op.Position < 0 ∧ insertOffset c.text.length op.Position = 0 ∨
        op.Position > (c.text.length : Int) ∧
          insertOffset c.text.length op.Position = c.text.length ∨
        (0 ≤ op.Position ∧ op.Position ≤ (c.text.length : Int)) ∧
          ((insertOffset c.text.length op.Position : Nat) : Int) = op.Position) := by
  have hq : insertOffset c.text.length op.Position ≤ c.text.length := by
    unfold insertOffset
    split_ifs <;> omega
  have happ := ApplyOperation_insert_eq c op h
  refine ⟨?_, ?_, ?_, ?_⟩
  · rw [happ, List.append_assoc]
  · simp only [List.length_append, List.length_take, List.length_drop]
    omega
  · rw [happ, List.append_assoc]
    rfl
  · unfold insertOffset
    split_ifs <;> omega

/-- The second example scenario of the spec: `"hello"`, `Insert(pos=5, " world")`. -/
def sampleInsert : Operation :=
  { Typ := OpInsert, DocID := "doc", Position := 5, Value := " world", OperationID := "op-2",
    Source := "alice", Timestamp := 2, CursorPos := 0, UserColor := "" }

/-- C1 at the spec's second scenario and at a negative and an overlong position. -/
theorem C1_insert_witness :
    sampleInsert.Typ = OpInsert ∧
      (ApplyOperation { text := "hello".data } sampleInsert).map GetText = some "hello world" ∧
      (ApplyOperation { text := "hello".data } { sampleInsert with Position := -3 }).map GetText
        = some " worldhello" ∧
      (ApplyOperation { text := "hello".data } { sampleInsert with Position := 99 }).map GetText
        = some "hello world" :=
  ⟨rfl,
   (C1_insert_splices_at_clamped_offset { text := "hello".data } sampleInsert rfl).2.2.1.trans
     (by decide),
   (C1_insert_splices_at_clamped_offset { text := "hello".data }
     { sampleInsert with Position := -3 } rfl).2.2.1.trans (by decide),
   (C1_insert_splices_at_clamped_offset { text := "hello".data }
     { sampleInsert with Position := 99 } rfl).2.2.1.trans (by decide)⟩

/-- C2: for every replica text `t`, position `p` and string `v`, a Delete
operation leaves the text equal to `t` when `p < 0` or `p ≥ len(t)`, and
otherwise equal to `t[0:p] ++ t[p+k:]` with `k = min(len(chars(v)), len(t) - p)`;
two Delete operations at the same position whose values have the same number of
characters have the same effect (the content of `v` is not used). -/
theorem C2_delete_removes_clamped_range (c : CRDT) (op : Operation)
    (h : op.Typ = OpDelete) :
    ((op.Position < 0 ∨ op.Position ≥ (c.text.length : Int)) ∧ ApplyOperation c op = some c ∨
      (0 ≤ op.Position ∧ op.Position < (c.text.length : Int)) ∧
        ApplyOperation c op =
          some { text := c.text.take op.Position.toNat ++
                  c.text.drop (op.Position.toNat +
                    min op.Value.data.length (c.text.length - op.Position.toNat)) }) ∧
      (∀ op2 : Operation, op2.Typ = OpDelete → op2.Position = op.Position →
        op2.Value.data.length = op.Value.data.length →
        ApplyOperation c op2 = ApplyOperation c op) := by
  constructor
  · rw [ApplyOperation_delete_eq c op h]
    by_cases hr : op.Position < 0 ∨ op.Position ≥ (c.text.length : Int)
    · left
      exact ⟨hr, if_pos hr⟩
    · right
      refine ⟨by omega, ?_⟩
      rw [if_neg hr]
      rfl
  · intro op2 h2 hp hv
    rw [ApplyOperation_delete_eq c op h, ApplyOperation_delete_eq c op2 h2, hp, hv]

/-- The third example scenario of the spec: `"hello world"`, `Delete(pos=5, "xxxxxx")`. -/
def sampleDelete : Operation :=
  { Typ := OpDelete, DocID := "doc", Position := 5, Value := "xxxxxx", OperationID := "op-3",
    Source := "alice", Timestamp := 3, CursorPos := 0, UserColor := "" }

/-- C2 at the spec's third and fourth scenarios and at an overlong delete. -/
theorem C2_delete_witness :
    sampleDelete.Typ = OpDelete ∧
      (ApplyOperation { text := "hello world".data } sampleDelete).map GetText = some "hello" ∧
      (ApplyOperation { text := "hi".data } sampleDelete).map GetText = some "hi" ∧
      (ApplyOperation { text := "hello world".data }
        { sampleDelete with Position := 9 }).map GetText = some "hello wor" ∧
      ApplyOperation { text := "hello world".data } { sampleDelete with Value := "abcdef" }
        = ApplyOperation { text := "hello world".data } sampleDelete :=
  ⟨rfl,
   by
     rcases (C2_delete_removes_clamped_range { text := "hello world".data } sampleDelete rfl).1
       with h | h
     · exact absurd h.1 (by decide)
     · rw [h.2]; decide,
   by
     rcases (C2_delete_removes_clamped_range { text := "hi".data } sampleDelete rfl).1
       with h | h
     · rw [h.2]; decide
     · exact absurd h.1 (by decide),
   by
     rcases (C2_delete_removes_clamped_range { text := "hello world".data }
       { sampleDelete with Position := 9 } rfl).1 with h | h
     · exact absurd h.1 (by decide)
     · rw [h.2]; decide,
   (C2_delete_removes_clamped_range { text := "hello world".data } sampleDelete rfl).2
     { sampleDelete with Value := "abcdef" } rfl rfl (by decide)⟩

/-- C3: `ApplyOperation` never fails.  For every replica text and every
operation (any kind, also an unrecognised one; any position; any value) the
call returns a text, and every slice expression it evaluates is within bounds:
in the insert branch `text[:q]` and `text[q:]` with `0 ≤ q ≤ len(text)`, in the
delete branch (when the position is in range) `text[:p]` and `text[p+k:]` with
`0 ≤ p ≤ p + k ≤ len(text)`; an operation that is neither an insert nor a
delete (a cursor or an unrecognised kind) leaves the replica as it is. -/
theorem C3_apply_never_fails (c : CRDT) (op : Operation) :
    (∃ c1, ApplyOperation c op = some c1) ∧
      ((sliceTo c.text (insertOffset c.text.length op.Position)).isSome ∧
        (sliceFrom c.text (insertOffset c.text.length op.Position)).isSome ∧
        insertOffset c.text.length op.Position ≤ c.text.length) ∧
      ((op.Position < 0 ∨ op.Position ≥ (c.text.length : Int)) ∨
        ((sliceTo c.text op.Position).isSome ∧
          (sliceFrom c.text (op.Position +
            deleteLength c.text.length op.Position.toNat op.Value.data.length)).isSome ∧
          0 ≤ op.Position ∧
          op.Position ≤ op.Position +
            deleteLength c.text.length op.Position.toNat op.Value.data.length ∧
          op.Position + deleteLength c.text.length op.Position.toNat op.Value.data.length
            ≤ (c.text.length : Int))) ∧
      (op.Typ = OpInsert ∨ op.Typ = OpDelete ∨ ApplyOperation c op = some c) := by
  have hq : insertOffset c.text.length op.Position ≤ c.text.length := by
    unfold insertOffset
    split_ifs <;> omega
  have hother : op.Typ = OpInsert ∨ op.Typ = OpDelete ∨ ApplyOperation c op = some c := by
    by_cases h1 : op.Typ = OpInsert
    · exact Or.inl h1
    · by_cases h2 : op.Typ = OpDelete
      · exact Or.inr (Or.inl h2)
      · exact Or.inr (Or.inr (ApplyOperation_other_eq c op h1 h2))
  refine ⟨ApplyOperation_returns c op, ⟨?_, ?_, hq⟩, ?_, hother⟩
  · rw [sliceTo_eq_some _ _ (by omega) (by omega)]
    rfl
  · rw [sliceFrom_eq_some _ _ (by omega) (by omega)]
    rfl
  · by_cases hr : op.Position < 0 ∨ op.Position ≥ (c.text.length : Int)
    · exact Or.inl hr
    · right
      have hle : op.Position.toNat +
          deleteLength c.text.length op.Position.toNat op.Value.data.length ≤ c.text.length := by
        unfold deleteLength
        omega
      refine ⟨?_, ?_, by omega, by omega, by omega⟩
      · rw [sliceTo_eq_some _ _ (by omega) (by omega)]
        rfl
      · rw [sliceFrom_eq_some _ _ (by omega) (by omega)]
        rfl

/-! ## Recovery (docmanager.go, models.go) -/

theorem replay_eq_foldlM (c : CRDT) (rs : List OperationRecord) :
    replay c rs = List.foldlM (fun c1 r => ApplyOperation c1 (ToCRDTOperation r)) c rs := by
  induction rs generalizing c with
  | nil => rfl
  | cons r rest ih =>
    rw [List.foldlM_cons]
    unfold replay
    cases hstep : ApplyOperation c (ToCRDTOperation r) with
    | none => rfl
    | some c1 => exact ih c1

/-- The replay loop returns on every list of records. -/
theorem replay_returns (c : CRDT) (rs : List OperationRecord) : ∃ c1, replay c rs = some c1 := by
  induction rs generalizing c with
  | nil => exact ⟨c, rfl⟩
  | cons r rest ih =>
    obtain ⟨c1, h1⟩ := ApplyOperation_returns c (ToCRDTOperation r)
    obtain ⟨c2, h2⟩ := ih c1
    refine ⟨c2, ?_⟩
    unfold replay
    rw [h1]
    exact h2

theorem ToCRDT_eq (sr : SnapshotRecord) : ToCRDT sr = some { text := sr.Content.data } := by
  unfold ToCRDT
  rw [ApplyOperation_insert_eq _ _ rfl]
  simp [NewCRDT, insertOffset]

/-- With no snapshot row the load returns after the first query. -/
theorem loadDocumentFromDB_of_not_found (db : DB) (ds : DocumentSession)
    (snapshot : Option SnapshotRecord)
    (h : GetLatestSnapshot db ds.DocID = (snapshot, some Error.ErrNotFound)) :
    loadDocumentFromDB db ds =
      some { err := none, ds := ds, queries := [Query.latestSnapshot ds.DocID] } := by
  unfold loadDocumentFromDB
  rw [h]
  simp

/-- A failing snapshot query ends the load with that error. -/
theorem loadDocumentFromDB_of_snapshot_error (db : DB) (ds : DocumentSession)
    (snapshot : Option SnapshotRecord) (e : Error) (hne : e ≠ Error.ErrNotFound)
    (h : GetLatestSnapshot db ds.DocID = (snapshot, some e)) :
    loadDocumentFromDB db ds =
      some { err := some e, ds := ds, queries := [Query.latestSnapshot ds.DocID] } := by
  unfold loadDocumentFromDB
  rw [h]
  simp [hne]

/-- A failing history query ends the load with that error. -/
theorem loadDocumentFromDB_of_history_error (db : DB) (ds : DocumentSession)
    (snap : SnapshotRecord) (ops : List OperationRecord) (e : Error)
    (h : GetLatestSnapshot db ds.DocID = (some snap, none))
    (ho : GetOperationsSince db ds.DocID snap.Revision = (ops, some e)) :
    loadDocumentFromDB db ds =
      some { err := some e, ds := { ds with CRDT := { text := snap.Content.data } },
             queries := [Query.latestSnapshot ds.DocID,
                         Query.operationsSince ds.DocID snap.Revision] } := by
  unfold loadDocumentFromDB
  rw [h]
  simp only [ToCRDT_eq]
  rw [ho]

/-- With a snapshot and a successful history query the load replays the records. -/
theorem loadDocumentFromDB_of_snapshot (db : DB) (ds : DocumentSession)
    (snap : SnapshotRecord) (rs : List OperationRecord)
    (h : GetLatestSnapshot db ds.DocID = (some snap, none))
    (ho : GetOperationsSince db ds.DocID snap.Revision = (rs, none)) :
    loadDocumentFromDB db ds =
      (replay { text := snap.Content.data } rs).map (fun c1 =>
        { err := none, ds := { ds with CRDT := c1 },
          queries := [Query.latestSnapshot ds.DocID,
                      Query.operationsSince ds.DocID snap.Revision] }) := by
  unfold loadDocumentFromDB
  rw [h]
  simp only [ToCRDT_eq]
  rw [ho]
  dsimp only
  cases replay { text := snap.Content.data } rs <;> rfl

/-- A database with one logged insert for `"doc"` and no snapshot. -/
def historyOnlyDB : DB :=
  { doc_snapshots := []
    doc_operations :=
      [{ DocID := "doc", OperationID := "op-1", OpType := "insert", Position := 0,
         Value := "hello", Timestamp := 10, Source := "alice" }]
    fault := fun _ => none }

/-- C4 (the code at the failing input): with no snapshot row and one logged
insert of `"hello"`, `GetLatestSnapshot` returns `ErrNotFound` and
`loadDocumentFromDB` returns `nil` after that single query, leaving the replica
empty, whereas replaying every stored record onto the empty text gives
`"hello"`. -/
theorem C4_no_snapshot_skips_replay :
    GetLatestSnapshot historyOnlyDB "doc" = (none, some Error.ErrNotFound) ∧
      loadDocumentFromDB historyOnlyDB (NewDocumentSession "doc") =
        some { err := none, ds := NewDocumentSession "doc",
               queries := [Query.latestSnapshot "doc"] } ∧
      GetText (NewDocumentSession "doc").CRDT = "" ∧
      (specRecoverWithoutSnapshot historyOnlyDB "doc").map GetText = some "hello" := by
  refine ⟨by decide, ?_, by decide, by decide⟩
  exact loadDocumentFromDB_of_not_found historyOnlyDB (NewDocumentSession "doc") none
    (by decide)

/-- C5: when the latest snapshot has content `C` and revision `R` and the store
returns the records `rs` for `GetOperationsSince(docID, R)`, then
`SnapshotRecord.ToCRDT` gives the replica whose text is `C` (`GetText` returns
`C`), `loadDocumentFromDB` returns `nil`, and the replica's final text is the
left fold of `ApplyOperation` over `ToCRDTOperation(r)` for `r` in `rs` started
from that replica; any other load with the same content and the same records
ends with the same text. -/
theorem C5_recovery_replays_history_on_snapshot (db : DB) (ds : DocumentSession)
    (snap : SnapshotRecord) (rs : List OperationRecord)
    (hs : GetLatestSnapshot db ds.DocID = (some snap, none))
    (ho : GetOperationsSince db ds.DocID snap.Revision = (rs, none)) :
    ToCRDT snap = some { text := snap.Content.data } ∧
      GetText { text := snap.Content.data } = snap.Content ∧
      (∃ c1, List.foldlM (fun c r => ApplyOperation c (ToCRDTOperation r))
                { text := snap.Content.data } rs = some c1 ∧
        loadDocumentFromDB db ds =
          some { err := none, ds := { ds with CRDT := c1 },
                 queries := [Query.latestSnapshot ds.DocID,
                             Query.operationsSince ds.DocID snap.Revision] }) ∧
      (∀ (db2 : DB) (ds2 : DocumentSession) (snap2 : SnapshotRecord),
        GetLatestSnapshot db2 ds2.DocID = (some snap2, none) →
        snap2.Content = snap.Content →
        GetOperationsSince db2 ds2.DocID snap2.Revision = (rs, none) →
        (loadDocumentFromDB db2 ds2).map (fun r => GetText r.ds.CRDT)
          = (loadDocumentFromDB db ds).map (fun r => GetText r.ds.CRDT)) := by
  refine ⟨ToCRDT_eq snap, rfl, ?_, ?_⟩
  · obtain ⟨c1, h1⟩ := replay_returns { text := snap.Content.data } rs
    refine ⟨c1, ?_, ?_⟩
    · rw [← replay_eq_foldlM]
      exact h1
    · rw [loadDocumentFromDB_of_snapshot db ds snap rs hs ho, h1]
      rfl
  · intro db2 ds2 snap2 hs2 hc ho2
    rw [loadDocumentFromDB_of_snapshot db ds snap rs hs ho,
      loadDocumentFromDB_of_snapshot db2 ds2 snap2 rs hs2 ho2, hc]
    cases replay { text := snap.Content.data } rs <;> rfl

/-- The fifth example scenario of the spec: snapshot `{revision: 100, content:
"abc"}` and one logged `Insert(pos=3, "def", timestamp 150)`. -/
def snapshotDB : DB :=
  { doc_snapshots := [{ DocID := "doc", Revision := 100, Content := "abc" }]
    doc_operations :=
      [{ DocID := "doc", OperationID := "op-7", OpType := "insert", Position := 3,
         Value := "def", Timestamp := 150, Source := "alice" }]
    fault := fun _ => none }

/-- C5 at the spec's fifth scenario: the recovered text is `"abcdef"`. -/
theorem C5_recovery_witness :
    GetLatestSnapshot snapshotDB (NewDocumentSession "doc").DocID
        = (some { DocID := "doc", Revision := 100, Content := "abc" }, none) ∧
      GetOperationsSince snapshotDB (NewDocumentSession "doc").DocID 100
        = ([{ DocID := "doc", OperationID := "op-7", OpType := "insert", Position := 3,
              Value := "def", Timestamp := 150, Source := "alice" }], none) ∧
      (loadDocumentFromDB snapshotDB (NewDocumentSession "doc")).map
          (fun r => (r.err, GetText r.ds.CRDT)) = some (none, "abcdef") := by
  refine ⟨by decide, by decide, ?_⟩
  obtain ⟨c1, hfold, hload⟩ :=
    (C5_recovery_replays_history_on_snapshot snapshotDB (NewDocumentSession "doc")
      { DocID := "doc", Revision := 100, Content := "abc" }
      [{ DocID := "doc", OperationID := "op-7", OpType := "insert", Position := 3,
         Value := "def", Timestamp := 150, Source := "alice" }]
      (by decide) (by decide)).2.2.1
  have hval : List.foldlM (fun c r => ApplyOperation c (ToCRDTOperation r))
      ({ text := "abc".data } : CRDT)
      [{ DocID := "doc", OperationID := "op-7", OpType := "insert", Position := 3,
         Value := "def", Timestamp := 150, Source := "alice" }]
      = some { text := "abcdef".data } := by decide
  have hc : c1 = { text := "abcdef".data } := by
    have h2 := hfold.symm.trans hval
    exact Option.some.inj h2
  rw [hload, hc]
  rfl

/-! ## The session registry (docmanager.go) -/

theorem EnsureSession_of_present (db : DB) (dm : DocManager) (docID : String)
    (ds : DocumentSession) (h : dm.docs.lookup docID = some ds) :
    EnsureSession db dm docID = some { ds := some ds, err := none, dm := dm, queries := [] } := by
  unfold EnsureSession
  rw [h]

theorem EnsureSession_of_absent (db : DB) (dm : DocManager) (docID : String)
    (r : LoadOutcome) (h : dm.docs.lookup docID = none)
    (hl : loadDocumentFromDB db (NewDocumentSession docID) = some r) :
    EnsureSession db dm docID =
      match r.err with
      | some err => some { ds := none, err := some err, dm := dm, queries := r.queries }
      | none =>
        some { ds := some r.ds, err := none,
               dm := { dm with docs := dm.docs.store docID r.ds }, queries := r.queries } := by
  unfold EnsureSession
  rw [h]
  dsimp only
  rw [hl]

theorem GoMap.lookup_store_self {κ ν : Type} [DecidableEq κ] (m : GoMap κ ν) (k : κ) (v : ν) :
    (m.store k v).lookup k = some v := by
  simp [GoMap.lookup, GoMap.store]

theorem GoMap.lookup_store_other {κ ν : Type} [DecidableEq κ] (m : GoMap κ ν) (k k2 : κ)
    (v : ν) (h : k2 ≠ k) : (m.store k v).lookup k2 = m.lookup k2 := by
  have hk : ¬ k = k2 := fun e => h e.symm
  have hp : (fun a : κ × ν => decide (decide (a.1 ≠ k) = true ∧ decide (a.1 = k2) = true))
      = (fun a => decide (a.1 = k2)) := by
    funext a
    by_cases h2 : a.1 = k2
    · simp [h2, h]
    · simp [h2]
  unfold GoMap.lookup GoMap.store
  rw [List.find?_cons_of_neg _ (by simpa using hk), List.find?_filter, hp]

theorem GoMap.store_entries_of_key {κ ν : Type} [DecidableEq κ] (m : GoMap κ ν) (k : κ) (v : ν) :
    (m.store k v).filter (fun e => decide (e.1 = k)) = [(k, v)] := by
  simp only [GoMap.store, List.filter_cons, decide_True, if_true, List.filter_filter]
  congr 1
  rw [List.filter_eq_nil_iff]
  intro e _
  by_cases he : e.1 = k <;> simp [he]

theorem GoMap.store_entries_of_others {κ ν : Type} [DecidableEq κ] (m : GoMap κ ν) (k : κ)
    (v : ν) :
    (m.store k v).filter (fun e => decide (e.1 ≠ k)) = m.filter (fun e => decide (e.1 ≠ k)) := by
  simp [GoMap.store, List.filter_cons, List.filter_filter]

/-- C6: for every registry and every document id with no session in it, if
recovery fails (`GetLatestSnapshot` returns an error other than `ErrNotFound`,
or, after a snapshot was found, `GetOperationsSince` returns an error),
`EnsureSession` returns that error and no session, and the registry is exactly
as before: no entry for the id, every other entry untouched. -/
theorem C6_failed_recovery_registers_nothing (db : DB) (dm : DocManager) (docID : String)
    (e : Error) (hnew : dm.docs.lookup docID = none)
    (hfail : ((GetLatestSnapshot db docID).2 = some e ∧ e ≠ Error.ErrNotFound) ∨
      (∃ snap, GetLatestSnapshot db docID = (some snap, none) ∧
        (GetOperationsSince db docID snap.Revision).2 = some e)) :
    ∃ r, EnsureSession db dm docID = some r ∧ r.ds = none ∧ r.err = some e ∧ r.dm = dm ∧
      r.dm.docs.lookup docID = none := by
  rcases hfail with ⟨hs, hne⟩ | ⟨snap, hs, ho⟩
  · have hs2 : GetLatestSnapshot db (NewDocumentSession docID).DocID
        = ((GetLatestSnapshot db docID).1, some e) := by
      show GetLatestSnapshot db docID = _
      rw [← hs]
    have hl := loadDocumentFromDB_of_snapshot_error db (NewDocumentSession docID) _ e hne hs2
    rw [EnsureSession_of_absent db dm docID _ hnew hl]
    exact ⟨_, rfl, rfl, rfl, rfl, hnew⟩
  · have ho2 : GetOperationsSince db (NewDocumentSession docID).DocID snap.Revision
        = ((GetOperationsSince db docID snap.Revision).1, some e) := by
      show GetOperationsSince db docID snap.Revision = _
      rw [← ho]
    have hl := loadDocumentFromDB_of_history_error db (NewDocumentSession docID) snap _ e hs ho2
    rw [EnsureSession_of_absent db dm docID _ hnew hl]
    exact ⟨_, rfl, rfl, rfl, rfl, hnew⟩

/-- A database whose snapshot query fails. -/
def unreachableDB : DB :=
  { doc_snapshots := []
    doc_operations := []
    fault := fun q => if q = Query.latestSnapshot "doc" then some "connection refused" else none }

/-- A database with a snapshot for `"doc"` whose history query fails. -/
def historyFailsDB : DB :=
  { doc_snapshots := [{ DocID := "doc", Revision := 100, Content := "abc" }]
    doc_operations := []
    fault := fun q =>
      if q = Query.operationsSince "doc" 100 then some "connection reset" else none }

/-- A registry holding one session, for `"other"`. -/
def sampleRegistry : DocManager :=
  { docs := [("other", { DocID := "other", CRDT := { text := "xyz".data },
                         Connections := [(4, true)], Presence := [] })] }

/-- C6 at a failing snapshot query and at a failing history query. -/
theorem C6_failed_recovery_witness :
    sampleRegistry.docs.lookup "doc" = none ∧
      EnsureSession unreachableDB sampleRegistry "doc" =
        some { ds := none, err := some (Error.driver "connection refused"),
               dm := sampleRegistry, queries := [Query.latestSnapshot "doc"] } ∧
      EnsureSession historyFailsDB sampleRegistry "doc" =
        some { ds := none, err := some (Error.driver "connection reset"),
               dm := sampleRegistry,
               queries := [Query.latestSnapshot "doc", Query.operationsSince "doc" 100] } := by
  refine ⟨by decide, ?_, ?_⟩
  · obtain ⟨r, hr, h1, h2, h3, _⟩ :=
      C6_failed_recovery_registers_nothing unreachableDB sampleRegistry "doc"
        (Error.driver "connection refused") (by decide) (Or.inl ⟨by decide, by decide⟩)
    rw [hr]
    have hq : (EnsureSession unreachableDB sampleRegistry "doc").map (fun o => o.queries)
        = some [Query.latestSnapshot "doc"] := by decide
    rw [hr] at hq
    have hq2 : r.queries = [Query.latestSnapshot "doc"] := Option.some.inj hq
    cases r
    simp only at h1 h2 h3 hq2
    rw [h1, h2, h3, hq2]
  · obtain ⟨r, hr, h1, h2, h3, _⟩ :=
      C6_failed_recovery_registers_nothing historyFailsDB sampleRegistry "doc"
        (Error.driver "connection reset") (by decide)
        (Or.inr ⟨{ DocID := "doc", Revision := 100, Content := "abc" }, by decide, by decide⟩)
    rw [hr]
    have hq : (EnsureSession historyFailsDB sampleRegistry "doc").map (fun o => o.queries)
        = some [Query.latestSnapshot "doc", Query.operationsSince "doc" 100] := by decide
    rw [hr] at hq
    have hq2 : r.queries = [Query.latestSnapshot "doc", Query.operationsSince "doc" 100] :=
      Option.some.inj hq
    cases r
    simp only at h1 h2 h3 hq2
    rw [h1, h2, h3, hq2]

theorem GetLatestSnapshot_cases (db : DB) (docID : String) :
    (∃ e, GetLatestSnapshot db docID = (none, some e)) ∨
      (∃ snap, GetLatestSnapshot db docID = (some snap, none)) := by
  unfold GetLatestSnapshot
  cases db.fault (Query.latestSnapshot docID) with
  | some msg => exact Or.inl ⟨_, rfl⟩
  | none =>
    cases latestRow (db.doc_snapshots.filter (fun r => decide (r.DocID = docID))) with
    | none => exact Or.inl ⟨_, rfl⟩
    | some rec => exact Or.inr ⟨_, rfl⟩

theorem GetOperationsSince_cases (db : DB) (docID : String) (minRevision : Int) :
    (∃ e, GetOperationsSince db docID minRevision = ([], some e)) ∨
      (∃ rs, GetOperationsSince db docID minRevision = (rs, none)) := by
  unfold GetOperationsSince
  cases db.fault (Query.operationsSince docID minRevision) with
  | some msg => exact Or.inl ⟨_, rfl⟩
  | none =>
    cases db.streamBreak (Query.operationsSince docID minRevision) with
    | none => exact Or.inr ⟨_, rfl⟩
    | some n => exact Or.inr ⟨_, rfl⟩

/-- Every call of `loadDocumentFromDB` returns; it keeps the session's id and
issues the snapshot query followed by at most one history query. -/
theorem loadDocumentFromDB_returns (db : DB) (ds : DocumentSession) :
    ∃ r, loadDocumentFromDB db ds = some r ∧ r.ds.DocID = ds.DocID ∧
      (r.queries = [Query.latestSnapshot ds.DocID] ∨
        ∃ rev, r.queries = [Query.latestSnapshot ds.DocID,
                            Query.operationsSince ds.DocID rev]) := by
  rcases GetLatestSnapshot_cases db ds.DocID with ⟨e, hs⟩ | ⟨snap, hs⟩
  · by_cases he : e = Error.ErrNotFound
    · subst he
      exact ⟨_, loadDocumentFromDB_of_not_found db ds none hs, rfl, Or.inl rfl⟩
    · exact ⟨_, loadDocumentFromDB_of_snapshot_error db ds none e he hs, rfl, Or.inl rfl⟩
  · rcases GetOperationsSince_cases db ds.DocID snap.Revision with ⟨e, ho⟩ | ⟨rs, ho⟩
    · exact ⟨_, loadDocumentFromDB_of_history_error db ds snap [] e hs ho, rfl,
        Or.inr ⟨_, rfl⟩⟩
    · obtain ⟨c1, h1⟩ := replay_returns { text := snap.Content.data } rs
      refine ⟨{ err := none, ds := { ds with CRDT := c1 },
                queries := [Query.latestSnapshot ds.DocID,
                            Query.operationsSince ds.DocID snap.Revision] },
        ?_, rfl, Or.inr ⟨snap.Revision, rfl⟩⟩
      rw [loadDocumentFromDB_of_snapshot db ds snap rs hs ho, h1]
      rfl

/-- When the history query runs to its end, a record is among the rows it
returns as often as it is stored if it belongs to the id and its timestamp is
greater than the revision, and not at all otherwise. -/
theorem GetOperationsSince_count (db : DB) (docID : String) (rev : Int)
    (hf : db.fault (Query.operationsSince docID rev) = none)
    (hs : db.streamBreak (Query.operationsSince docID rev) = none) (r : OperationRecord) :
    (GetOperationsSince db docID rev).1.count r =
      if r.DocID = docID ∧ r.Timestamp > rev then db.doc_operations.count r else 0 := by
  unfold GetOperationsSince
  rw [hf]
  dsimp only
  rw [hs]
  dsimp only
  rw [(List.perm_insertionSort _ _).count_eq]
  split_ifs with h
  · exact List.count_filter (by simpa using h)
  · apply List.count_eq_zero_of_not_mem
    intro hm
    have h2 := (List.mem_filter.mp hm).2
    exact h (by simpa using h2)

/-- A database with a snapshot of `"doc"` at revision 100, one record logged
before that revision and one after it. -/
def olderRecordDB : DB :=
  { doc_snapshots := [{ DocID := "doc", Revision := 100, Content := "abc" }]
    doc_operations :=
      [{ DocID := "doc", OperationID := "op-5", OpType := "insert", Position := 0,
         Value := "abc", Timestamp := 90, Source := "alice" },
       { DocID := "doc", OperationID := "op-7", OpType := "insert", Position := 3,
         Value := "def", Timestamp := 150, Source := "alice" }]
    fault := fun _ => none }

/-- The session recovered from `snapshotDB` and from `olderRecordDB` for `"doc"`. -/
def recoveredSession : DocumentSession :=
  { DocID := "doc", CRDT := { text := "abcdef".data }, Connections := [], Presence := [] }

/-- C7 (the claim fails): two successive successful calls do not replay each
logged operation once.  With a snapshot at revision 100, the record `op-5`
logged at timestamp 90 is stored but is not among the rows the history query
returns, so it is never replayed: the recovered text is `"abcdef"`, not the
`"abcdefabc"` that replaying every stored record once would give.  With no
snapshot (the input of C4) the two calls issue the snapshot query only and the
text stays empty although `op-1` is stored. -/
theorem C7_not_every_logged_operation_replayed :
    EnsureSession olderRecordDB NewDocManager "doc" =
        some { ds := some recoveredSession, err := none,
               dm := { docs := [("doc", recoveredSession)] },
               queries := [Query.latestSnapshot "doc", Query.operationsSince "doc" 100] } ∧
      EnsureSession olderRecordDB { docs := [("doc", recoveredSession)] } "doc" =
        some { ds := some recoveredSession, err := none,
               dm := { docs := [("doc", recoveredSession)] }, queries := [] } ∧
      olderRecordDB.doc_operations.map (fun r => (r.OperationID, r.Timestamp))
        = [("op-5", 90), ("op-7", 150)] ∧
      (GetOperationsSince olderRecordDB "doc" 100).1.map (fun r => r.OperationID) = ["op-7"] ∧
      (specReplayEveryRecord olderRecordDB "doc").map GetText = some "abcdefabc" ∧
      EnsureSession historyOnlyDB NewDocManager "doc" =
        some { ds := some (NewDocumentSession "doc"), err := none,
               dm := { docs := [("doc", NewDocumentSession "doc")] },
               queries := [Query.latestSnapshot "doc"] } ∧
      EnsureSession historyOnlyDB { docs := [("doc", NewDocumentSession "doc")] } "doc" =
        some { ds := some (NewDocumentSession "doc"), err := none,
               dm := { docs := [("doc", NewDocumentSession "doc")] }, queries := [] } ∧
      (specReplayEveryRecord historyOnlyDB "doc").map GetText = some "hello" ∧
      ¬ (∀ (db : DB) (dm : DocManager) (docID : String) (r1 r2 : EnsureOutcome),
          dm.docs.lookup docID = none →
          EnsureSession db dm docID = some r1 → r1.err = none →
          EnsureSession db r1.dm docID = some r2 → r2.err = none →
          r2.ds.map (fun d => d.CRDT) = specReplayEveryRecord db docID) := by
  have hfirst : EnsureSession olderRecordDB NewDocManager "doc" =
      some { ds := some recoveredSession, err := none,
             dm := { docs := [("doc", recoveredSession)] },
             queries := [Query.latestSnapshot "doc", Query.operationsSince "doc" 100] } := by
    decide
  have hsecond : EnsureSession olderRecordDB { docs := [("doc", recoveredSession)] } "doc" =
      some { ds := some recoveredSession, err := none,
             dm := { docs := [("doc", recoveredSession)] }, queries := [] } := by
    decide
  refine ⟨hfirst, hsecond, by decide, by decide, by decide, by decide, by decide, by decide, ?_⟩
  intro hall
  have h := hall olderRecordDB NewDocManager "doc" _ _ (by decide) hfirst rfl hsecond rfl
  exact absurd h (by decide)

/-- C7 (amended): `EnsureSession` is idempotent per document id.  If the
registry already holds a session for the id, the call returns that session and
no error, issues no store query whatever the store holds, and leaves the
registry (and so the session's text) as it is.  Hence, for an id not yet in the
registry, the first call returns, and when it succeeds the session it returns
is the outcome of one run of `loadDocumentFromDB` (the snapshot query and at
most one history query), registered as the only entry for the id next to the
untouched other entries, while a second call returns the same session from the
same registry without any query, so it replays nothing.  When the store holds
a snapshot with content `C` and revision `R` and returns the records `rs` for
`GetOperationsSince(docID, R)`, the first call succeeds and the registered text
is the left fold of `ApplyOperation` over `rs` from `C`: each returned record
is applied once.  When the history query runs to its end, `rs` holds each
stored record of the id with timestamp greater than `R` as often as it is
stored, and no other record (records at or before `R` are not replayed). -/
theorem C7_ensure_session_idempotent (db : DB) (dm : DocManager) (docID : String) :
    (∀ ds, dm.docs.lookup docID = some ds →
        ∀ db2, EnsureSession db2 dm docID =
          some { ds := some ds, err := none, dm := dm, queries := [] }) ∧
      (∃ r1, EnsureSession db dm docID = some r1) ∧
      (∀ r1, dm.docs.lookup docID = none → EnsureSession db dm docID = some r1 →
        r1.err = none →
        ∃ ds1, r1.ds = some ds1 ∧
          loadDocumentFromDB db (NewDocumentSession docID) =
            some { err := none, ds := ds1, queries := r1.queries } ∧
          r1.dm.docs.filter (fun e => decide (e.1 = docID)) = [(docID, ds1)] ∧
          r1.dm.docs.filter (fun e => decide (e.1 ≠ docID))
            = dm.docs.filter (fun e => decide (e.1 ≠ docID)) ∧
          (r1.queries = [Query.latestSnapshot docID] ∨
            ∃ rev, r1.queries = [Query.latestSnapshot docID,
                                 Query.operationsSince docID rev]) ∧
          ∀ db2, EnsureSession db2 r1.dm docID =
            some { ds := some ds1, err := none, dm := r1.dm, queries := [] }) ∧
      (∀ (snap : SnapshotRecord) (rs : List OperationRecord),
        dm.docs.lookup docID = none →
        GetLatestSnapshot db docID = (some snap, none) →
        GetOperationsSince db docID snap.Revision = (rs, none) →
        ∃ c1, List.foldlM (fun c r => ApplyOperation c (ToCRDTOperation r))
                  { text := snap.Content.data } rs = some c1 ∧
          EnsureSession db dm docID =
            some { ds := some { NewDocumentSession docID with CRDT := c1 }, err := none,
                   dm := { dm with
                           docs := dm.docs.store docID
                             { NewDocumentSession docID with CRDT := c1 } },
                   queries := [Query.latestSnapshot docID,
                               Query.operationsSince docID snap.Revision] } ∧
          ∀ db2, EnsureSession db2
              { dm with
                docs := dm.docs.store docID { NewDocumentSession docID with CRDT := c1 } }
              docID =
            some { ds := some { NewDocumentSession docID with CRDT := c1 }, err := none,
                   dm := { dm with
                           docs := dm.docs.store docID
                             { NewDocumentSession docID with CRDT := c1 } },
                   queries := [] }) ∧
      (∀ (rev : Int) (r : OperationRecord),
        db.fault (Query.operationsSince docID rev) = none →
        db.streamBreak (Query.operationsSince docID rev) = none →
        (GetOperationsSince db docID rev).1.count r =
          if r.DocID = docID ∧ r.Timestamp > rev then db.doc_operations.count r else 0) := by
  obtain ⟨r, hl, _, hq⟩ := loadDocumentFromDB_returns db (NewDocumentSession docID)
  refine ⟨fun ds h db2 => EnsureSession_of_present db2 dm docID ds h, ?_, ?_, ?_,
    fun rev r hf hs => GetOperationsSince_count db docID rev hf hs r⟩
  · cases hlook : dm.docs.lookup docID with
    | some ds => exact ⟨_, EnsureSession_of_present db dm docID ds hlook⟩
    | none =>
      rw [EnsureSession_of_absent db dm docID r hlook hl]
      cases r.err with
      | none => exact ⟨_, rfl⟩
      | some err => exact ⟨_, rfl⟩
  · intro r1 hnew h1 herr
    rw [EnsureSession_of_absent db dm docID r hnew hl] at h1
    cases hre : r.err with
    | some err =>
      rw [hre] at h1
      have h2 := Option.some.inj h1
      rw [← h2] at herr
      exact absurd herr (by simp)
    | none =>
      rw [hre] at h1
      have h2 := Option.some.inj h1
      subst h2
      refine ⟨r.ds, rfl, ?_, GoMap.store_entries_of_key dm.docs docID r.ds,
        GoMap.store_entries_of_others dm.docs docID r.ds, hq, ?_⟩
      · rw [hl]
        cases r
        simp only at hre
        rw [hre]
      intro db2
      exact EnsureSession_of_present db2 _ docID r.ds
        (GoMap.lookup_store_self dm.docs docID r.ds)
  · intro snap rs hnew hs ho
    obtain ⟨c1, h1⟩ := replay_returns { text := snap.Content.data } rs
    have hload : loadDocumentFromDB db (NewDocumentSession docID) =
        some { err := none, ds := { NewDocumentSession docID with CRDT := c1 },
               queries := [Query.latestSnapshot docID,
                           Query.operationsSince docID snap.Revision] } := by
      rw [loadDocumentFromDB_of_snapshot db (NewDocumentSession docID) snap rs hs ho, h1]
      rfl
    refine ⟨c1, ?_, ?_, ?_⟩
    · rw [← replay_eq_foldlM]
      exact h1
    · rw [EnsureSession_of_absent db dm docID _ hnew hload]
    · intro db2
      exact EnsureSession_of_present db2 _ docID _ (GoMap.lookup_store_self dm.docs docID _)

/-- C7 (amended) at the spec's fifth scenario: the first call recovers
`"abcdef"` with two queries and registers one session next to the one already
held; the second call, even against a store that now fails, returns that
session with no query and the same registry.  With a record logged before the
snapshot revision, the history query returns the later record once and the
earlier one not at all, and the recovered text is again `"abcdef"`. -/
theorem C7_ensure_session_witness :
    EnsureSession snapshotDB sampleRegistry "doc" =
        some { ds := some recoveredSession, err := none,
               dm := { docs := ("doc", recoveredSession) :: sampleRegistry.docs },
               queries := [Query.latestSnapshot "doc", Query.operationsSince "doc" 100] } ∧
      EnsureSession unreachableDB { docs := ("doc", recoveredSession) :: sampleRegistry.docs }
          "doc" =
        some { ds := some recoveredSession, err := none,
               dm := { docs := ("doc", recoveredSession) :: sampleRegistry.docs },
               queries := [] } ∧
      (GetOperationsSince olderRecordDB "doc" 100).1.count
          { DocID := "doc", OperationID := "op-7", OpType := "insert", Position := 3,
            Value := "def", Timestamp := 150, Source := "alice" } = 1 ∧
      (GetOperationsSince olderRecordDB "doc" 100).1.count
          { DocID := "doc", OperationID := "op-5", OpType := "insert", Position := 0,
            Value := "abc", Timestamp := 90, Source := "alice" } = 0 ∧
      (EnsureSession olderRecordDB sampleRegistry "doc").map
          (fun r => (r.err, r.ds.map (fun d => GetText d.CRDT), r.queries))
        = some (none, some "abcdef",
            [Query.latestSnapshot "doc", Query.operationsSince "doc" 100]) := by
  have h1 : EnsureSession snapshotDB sampleRegistry "doc" =
      some { ds := some recoveredSession, err := none,
             dm := { docs := ("doc", recoveredSession) :: sampleRegistry.docs },
             queries := [Query.latestSnapshot "doc", Query.operationsSince "doc" 100] } := by
    decide
  refine ⟨h1, ?_, ?_, ?_, ?_⟩
  · obtain ⟨ds1, hds, _, _, _, _, hsecond⟩ :=
      (C7_ensure_session_idempotent snapshotDB sampleRegistry "doc").2.2.1 _ (by decide) h1 rfl
    have hd : ds1 = recoveredSession := (Option.some.inj hds).symm
    rw [hd] at hsecond
    exact hsecond unreachableDB
  · exact ((C7_ensure_session_idempotent olderRecordDB sampleRegistry "doc").2.2.2.2 100 _
      rfl rfl).trans (by decide)
  · exact ((C7_ensure_session_idempotent olderRecordDB sampleRegistry "doc").2.2.2.2 100 _
      rfl rfl).trans (by decide)
  · obtain ⟨c1, hfold, hfirst, _⟩ :=
      (C7_ensure_session_idempotent olderRecordDB sampleRegistry "doc").2.2.2.1
        { DocID := "doc", Revision := 100, Content := "abc" }
        [{ DocID := "doc", OperationID := "op-7", OpType := "insert", Position := 3,
           Value := "def", Timestamp := 150, Source := "alice" }]
        (by decide) (by decide) (by decide)
    have hval : List.foldlM (fun c r => ApplyOperation c (ToCRDTOperation r))
        ({ text := "abc".data } : CRDT)
        [{ DocID := "doc", OperationID := "op-7", OpType := "insert", Position := 3,
           Value := "def", Timestamp := 150, Source := "alice" }]
        = some { text := "abcdef".data } := by decide
    have hc : c1 = { text := "abcdef".data } := Option.some.inj (hfold.symm.trans hval)
    rw [hfirst, hc]
    rfl

/-! ## The session: broadcast, persistence hand-off, presence (docmanager.go) -/

theorem broadcastLoop_targets (tr : Transport) (operation : Operation) (sender : Conn)
    (conns : List Conn) :
    (broadcastLoop tr operation sender conns).map (fun w => (w.conn, w.payload))
      = (conns.filter (fun c => decide (c ≠ sender))).map (fun c => (c, operation)) := by
  induction conns with
  | nil => rfl
  | cons c rest ih =>
    unfold broadcastLoop
    by_cases hc : c = sender
    · rw [if_pos hc, ih, List.filter_cons_of_neg (by simpa using hc)]
    · rw [if_neg hc, List.filter_cons_of_pos (by simpa using hc), List.map_cons, List.map_cons,
        ih]

theorem broadcastLoop_conns (tr : Transport) (operation : Operation) (sender : Conn)
    (conns : List Conn) :
    (broadcastLoop tr operation sender conns).map (fun w => w.conn)
      = conns.filter (fun c => decide (c ≠ sender)) := by
  have h := congrArg (List.map Prod.fst) (broadcastLoop_targets tr operation sender conns)
  simpa [List.map_map, Function.comp_def] using h

theorem broadcastLoop_errs (tr : Transport) (operation : Operation) (sender : Conn)
    (conns : List Conn) :
    ∀ w ∈ broadcastLoop tr operation sender conns, w.err = tr w.conn operation := by
  induction conns with
  | nil => intro w hw; cases hw
  | cons c rest ih =>
    intro w hw
    unfold broadcastLoop at hw
    by_cases hc : c = sender
    · rw [if_pos hc] at hw
      exact ih w hw
    · rw [if_neg hc] at hw
      rcases List.mem_cons.mp hw with h | h
      · rw [h]
      · exact ih w h

theorem ApplyAndBroadcast_eq (tr : Transport) (ds : DocumentSession) (op : Operation)
    (sender : Conn) (c : CRDT) (h : ApplyOperation ds.CRDT op = some c) :
    ApplyAndBroadcast tr ds op sender =
      some { ds := if op.Typ = OpCursor then
                     { ds with
                       CRDT := c
                       Presence := ds.Presence.store op.Source
                         { UserID := op.Source, UserColor := op.UserColor,
                           CursorPos := op.CursorPos } }
                   else { ds with CRDT := c }
             persisted := [op]
             writes := broadcastLoop tr op sender ds.Connections.keys } := by
  unfold ApplyAndBroadcast
  rw [h]
  by_cases hc : op.Typ = OpCursor
  · simp only [if_pos hc]
    rfl
  · simp only [if_neg hc]
    rfl

/-- The key set of `Connections` stays duplicate-free. -/
theorem Connections_keys_nodup :
    (NewDocumentSession "").Connections.keys.Nodup ∧
      (∀ (ds : DocumentSession) (conn : Conn), ds.Connections.keys.Nodup →
        (AddConnection ds conn).Connections.keys.Nodup ∧
          (RemoveConnection ds conn).Connections.keys.Nodup) := by
  refine ⟨List.nodup_nil, ?_⟩
  intro ds conn hnd
  have hf : ∀ m : GoMap Conn Bool, (m.filter (fun e => decide (e.1 ≠ conn))).map Prod.fst
      = (m.map Prod.fst).filter (fun c => decide (c ≠ conn)) := by
    intro m
    rw [List.filter_map]
    rfl
  constructor
  · show (List.map Prod.fst ((conn, true) :: _)).Nodup
    rw [List.map_cons, hf, List.nodup_cons]
    refine ⟨?_, hnd.filter _⟩
    intro hmem
    have := (List.mem_filter.mp hmem).2
    simp at this
  · show (List.map Prod.fst (List.filter _ _)).Nodup
    rw [hf]
    exact hnd.filter _

/-- C8: for every session, operation and sender, `BroadcastOperation` (and so
`ApplyAndBroadcast`) calls `WriteJSON` on exactly the connections of the
session's connection set other than the sender, once each, with the operation
unchanged (the keys of a Go map are distinct, which is the hypothesis); the
sender is not among them; which sends fail changes neither the list of sends
nor the replica text left by the apply. -/
theorem C8_broadcast_reaches_all_but_sender (tr : Transport) (ds : DocumentSession)
    (op : Operation) (sender : Conn) (hnd : ds.Connections.keys.Nodup) :
    (BroadcastOperation tr ds op sender).map (fun w => (w.conn, w.payload))
        = (ds.Connections.keys.filter (fun c => decide (c ≠ sender))).map (fun c => (c, op)) ∧
      sender ∉ (BroadcastOperation tr ds op sender).map (fun w => w.conn) ∧
      (∀ c, c ∈ ds.Connections.keys → c ≠ sender →
        ((BroadcastOperation tr ds op sender).map (fun w => w.conn)).count c = 1) ∧
      (∀ w ∈ BroadcastOperation tr ds op sender,
        w.conn ∈ ds.Connections.keys ∧ w.payload = op ∧ w.err = tr w.conn op) ∧
      (∃ c r, ApplyOperation ds.CRDT op = some c ∧
        ApplyAndBroadcast tr ds op sender = some r ∧
        r.writes = BroadcastOperation tr ds op sender ∧
        r.ds.CRDT = c ∧ r.ds.Connections = ds.Connections ∧
        ∀ tr2 : Transport, ∃ r2, ApplyAndBroadcast tr2 ds op sender = some r2 ∧
          r2.writes.map (fun w => (w.conn, w.payload))
            = r.writes.map (fun w => (w.conn, w.payload)) ∧
          r2.ds = r.ds) := by
  have hconns := broadcastLoop_conns tr op sender ds.Connections.keys
  have htargets := broadcastLoop_targets tr op sender ds.Connections.keys
  refine ⟨htargets, ?_, ?_, ?_, ?_⟩
  · show sender ∉ (broadcastLoop tr op sender ds.Connections.keys).map (fun w => w.conn)
    rw [hconns]
    intro hmem
    have := (List.mem_filter.mp hmem).2
    simp at this
  · intro c hc hne
    show ((broadcastLoop tr op sender ds.Connections.keys).map (fun w => w.conn)).count c = 1
    rw [hconns]
    exact List.count_eq_one_of_mem (hnd.filter _)
      (List.mem_filter.mpr ⟨hc, by simpa using hne⟩)
  · intro w hw
    have hw2 : w ∈ broadcastLoop tr op sender ds.Connections.keys := hw
    have hmem : (w.conn, w.payload) ∈
        (broadcastLoop tr op sender ds.Connections.keys).map (fun w => (w.conn, w.payload)) :=
      List.mem_map.mpr ⟨w, hw2, rfl⟩
    rw [htargets] at hmem
    obtain ⟨c, hc, heq⟩ := List.mem_map.mp hmem
    have h1 : c = w.conn := congrArg Prod.fst heq
    have h2 : op = w.payload := congrArg Prod.snd heq
    refine ⟨?_, h2.symm, broadcastLoop_errs tr op sender _ w hw2⟩
    rw [← h1]
    exact (List.mem_filter.mp hc).1
  · obtain ⟨c, hc⟩ := ApplyOperation_returns ds.CRDT op
    refine ⟨c, _, hc, ApplyAndBroadcast_eq tr ds op sender c hc, rfl, ?_, ?_, ?_⟩
    · dsimp only
      split_ifs <;> rfl
    · dsimp only
      split_ifs <;> rfl
    · intro tr2
      refine ⟨_, ApplyAndBroadcast_eq tr2 ds op sender c hc, ?_, rfl⟩
      dsimp only
      rw [broadcastLoop_targets, broadcastLoop_targets]

/-- A session for `"doc"` holding `"hello"` with three connections. -/
def sampleSession : DocumentSession :=
  { DocID := "doc", CRDT := { text := "hello".data },
    Connections := [(1, true), (2, true), (3, true)],
    Presence := [("bob", { UserID := "bob", UserColor := "#00ff00", CursorPos := 1 })] }

/-- A transport on which every write to connection `2` fails. -/
def flakyTransport : Transport := fun conn _ => if conn = 2 then some "broken pipe" else none

/-- C8 at the spec's sixth scenario, with a third connection whose write fails:
sender `1`, the writes go to `2` (failing) and `3`, and the text becomes
`"hello world"`. -/
theorem C8_broadcast_witness :
    sampleSession.Connections.keys.Nodup ∧
      (BroadcastOperation flakyTransport sampleSession sampleInsert 1).map
          (fun w => (w.conn, w.payload)) = [(2, sampleInsert), (3, sampleInsert)] ∧
      (ApplyAndBroadcast flakyTransport sampleSession sampleInsert 1).map
          (fun r => (GetText r.ds.CRDT, r.writes.map (fun w => (w.conn, w.err))))
        = some ("hello world", [(2, some "broken pipe"), (3, none)]) :=
  ⟨by decide,
   (C8_broadcast_reaches_all_but_sender flakyTransport sampleSession sampleInsert 1
     (by decide)).1.trans (by decide),
   by decide⟩

/-- The registry maps each id to a session carrying that id: `EnsureSession`
keeps this, and the session it returns for `docID` has `DocID = docID`. -/
theorem EnsureSession_session_id (db : DB) (dm : DocManager) (docID : String)
    (r : EnsureOutcome) (hinv : ∀ e ∈ dm.docs, e.2.DocID = e.1)
    (h : EnsureSession db dm docID = some r) :
    (∀ ds, r.ds = some ds → ds.DocID = docID) ∧ (∀ e ∈ r.dm.docs, e.2.DocID = e.1) := by
  cases hlook : dm.docs.lookup docID with
  | some ds0 =>
    rw [EnsureSession_of_present db dm docID ds0 hlook] at h
    have h2 := Option.some.inj h
    subst h2
    refine ⟨?_, hinv⟩
    intro ds hds
    have hd : ds0 = ds := Option.some.inj hds
    subst hd
    unfold GoMap.lookup at hlook
    cases hf : List.find? (fun e => decide (e.1 = docID)) dm.docs with
    | none => rw [hf] at hlook; cases hlook
    | some e =>
      rw [hf] at hlook
      have he : e.2 = ds0 := Option.some.inj hlook
      have hk : e.1 = docID := by simpa using List.find?_some hf
      rw [← he, hinv e (List.mem_of_find?_eq_some hf), hk]
  | none =>
    obtain ⟨lr, hl, hid, _⟩ := loadDocumentFromDB_returns db (NewDocumentSession docID)
    rw [EnsureSession_of_absent db dm docID lr hlook hl] at h
    cases hre : lr.err with
    | some err =>
      rw [hre] at h
      have h2 := Option.some.inj h
      subst h2
      exact ⟨fun ds hds => Option.noConfusion hds, hinv⟩
    | none =>
      rw [hre] at h
      have h2 := Option.some.inj h
      subst h2
      refine ⟨?_, ?_⟩
      · intro ds hds
        have hd : lr.ds = ds := Option.some.inj hds
        rw [← hd, hid]
        rfl
      · intro e he
        rcases List.mem_cons.mp he with h1 | h1
        · rw [h1]
          exact hid
        · exact hinv e (List.mem_filter.mp h1).1

/-- C9 (the claim fails): a session for `"doc"` given an operation whose `DocID`
is `"elsewhere"` hands that operation, still carrying `"elsewhere"`, to
`models.InsertOperation` and to both other connections. -/
theorem C9_session_does_not_force_doc_id :
    sampleSession.DocID = "doc" ∧
      (ApplyAndBroadcast flakyTransport sampleSession
          { sampleInsert with DocID := "elsewhere" } 1).map
        (fun r => (r.persisted.map (fun o => o.DocID), r.writes.map (fun w => w.payload.DocID)))
        = some (["elsewhere"], ["elsewhere", "elsewhere"]) ∧
      ¬ (∀ (tr : Transport) (ds : DocumentSession) (op : Operation) (sender : Conn)
          (r : ApplyOutcome), ApplyAndBroadcast tr ds op sender = some r →
          (∀ o ∈ r.persisted, o.DocID = ds.DocID) ∧
            (∀ w ∈ r.writes, w.payload.DocID = ds.DocID)) := by
  have hrun : ApplyAndBroadcast flakyTransport sampleSession
      { sampleInsert with DocID := "elsewhere" } 1 =
      some { ds := { sampleSession with CRDT := { text := "hello world".data } }
             persisted := [{ sampleInsert with DocID := "elsewhere" }]
             writes := [{ conn := 2, payload := { sampleInsert with DocID := "elsewhere" },
                          err := some "broken pipe" },
                        { conn := 3, payload := { sampleInsert with DocID := "elsewhere" },
                          err := none }] } := by
    decide
  refine ⟨rfl, ?_, ?_⟩
  · rw [hrun]
    rfl
  · intro hall
    have h := (hall _ _ _ _ _ hrun).1 { sampleInsert with DocID := "elsewhere" }
      (List.mem_singleton.mpr rfl)
    exact absurd h (by decide)

/-- C9 (amended): `ApplyAndBroadcast` hands the operation it was given, unchanged
(so with the `DocID` its caller set), to `models.InsertOperation` and to every
other connection; the receive loop of `wsHandler` sets `DocID` to the id it
obtained the session for before the call, so an operation arriving through
`wsHandler` is persisted and sent with the session's id. -/
theorem C9_doc_id_forced_by_handler (tr : Transport) (ds : DocumentSession) (op : Operation)
    (sender : Conn) (docID userID userColor : String) (hid : ds.DocID = docID) :
    (∃ r, ApplyAndBroadcast tr ds op sender = some r ∧ r.persisted = [op] ∧
        ∀ w ∈ r.writes, w.payload = op) ∧
      (∃ r, wsHandlerStep tr docID userID userColor ds op sender = some r ∧
        (∃ o, r.persisted = [o] ∧ o.DocID = ds.DocID) ∧
        (∀ w ∈ r.writes, w.payload.DocID = ds.DocID)) := by
  have hpay : ∀ (o : Operation), ∀ w ∈ broadcastLoop tr o sender ds.Connections.keys,
      w.payload = o := by
    intro o w hw
    have hmem : (w.conn, w.payload) ∈
        (broadcastLoop tr o sender ds.Connections.keys).map (fun w => (w.conn, w.payload)) :=
      List.mem_map.mpr ⟨w, hw, rfl⟩
    rw [broadcastLoop_targets] at hmem
    obtain ⟨c, _, heq⟩ := List.mem_map.mp hmem
    exact (congrArg Prod.snd heq).symm
  constructor
  · obtain ⟨c, hc⟩ := ApplyOperation_returns ds.CRDT op
    exact ⟨_, ApplyAndBroadcast_eq tr ds op sender c hc, rfl, hpay op⟩
  · unfold wsHandlerStep
    dsimp only
    by_cases hcur : op.Typ = OpCursor
    · rw [if_pos hcur]
      obtain ⟨c, hc⟩ := ApplyOperation_returns ds.CRDT
        { op with DocID := docID, Source := userID, UserColor := userColor }
      refine ⟨_, ApplyAndBroadcast_eq tr ds _ sender c hc, ⟨_, rfl, hid.symm⟩, ?_⟩
      intro w hw
      rw [hpay _ w hw]
      exact hid.symm
    · rw [if_neg hcur]
      obtain ⟨c, hc⟩ := ApplyOperation_returns ds.CRDT
        { op with DocID := docID, Source := userID }
      refine ⟨_, ApplyAndBroadcast_eq tr ds _ sender c hc, ⟨_, rfl, hid.symm⟩, ?_⟩
      intro w hw
      rw [hpay _ w hw]
      exact hid.symm

/-- C9 (amended) at the input of the counterexample: through `wsHandler` the
operation claiming `"elsewhere"` is persisted and sent with `"doc"`. -/
theorem C9_doc_id_witness :
    sampleSession.DocID = "doc" ∧
      (wsHandlerStep flakyTransport "doc" "alice" "#ff0000" sampleSession
          { sampleInsert with DocID := "elsewhere" } 1).map
        (fun r => (r.persisted.map (fun o => o.DocID), r.writes.map (fun w => w.payload.DocID)))
        = some (["doc"], ["doc", "doc"]) := by
  refine ⟨rfl, ?_⟩
  obtain ⟨r, hr, ⟨o, ho, hdoc⟩, hw⟩ :=
    (C9_doc_id_forced_by_handler flakyTransport sampleSession
      { sampleInsert with DocID := "elsewhere" } 1 "doc" "alice" "#ff0000" rfl).2
  have hconns : (wsHandlerStep flakyTransport "doc" "alice" "#ff0000" sampleSession
      { sampleInsert with DocID := "elsewhere" } 1).map
      (fun r => r.writes.map (fun w => w.conn)) = some [2, 3] := by decide
  rw [hr] at hconns ⊢
  have hc : r.writes.map (fun w => w.conn) = [2, 3] := Option.some.inj hconns
  have hlen : r.writes.length = 2 := by
    have := congrArg List.length hc
    simpa using this
  have hd : r.writes.map (fun w => w.payload.DocID) = ["doc", "doc"] := by
    match hws : r.writes, hlen with
    | [w1, w2], _ =>
      have h1 := hw w1 (by rw [hws]; simp)
      have h2 := hw w2 (by rw [hws]; simp)
      simp only [List.map_cons, List.map_nil, h1, h2]
      rfl
  simp only [Option.map_some', ho, hd, List.map_cons, List.map_nil, hdoc]
  rfl

/-- C10: for every session and every Cursor operation `op`, after
`ApplyAndBroadcast` the presence map is the previous map with key `op.Source`
set to `(UserID = op.Source, UserColor = op.UserColor, CursorPos = op.CursorPos)`:
that key has exactly that one entry, the entries and look-ups of all other
users are as before, and the replica text is unchanged.  A second Cursor
operation of the same user leaves one entry for the user, holding the second
operation's values; an Insert or Delete operation leaves the presence map
unchanged. -/
theorem C10_cursor_upserts_presence (tr : Transport) (ds : DocumentSession) (op : Operation)
    (sender : Conn) (h : op.Typ = OpCursor) :
    (∃ r, ApplyAndBroadcast tr ds op sender = some r ∧
      r.ds.Presence = ds.Presence.store op.Source
        { UserID := op.Source, UserColor := op.UserColor, CursorPos := op.CursorPos } ∧
      r.ds.Presence.lookup op.Source =
        some { UserID := op.Source, UserColor := op.UserColor, CursorPos := op.CursorPos } ∧
      (∀ u, u ≠ op.Source → r.ds.Presence.lookup u = ds.Presence.lookup u) ∧
      r.ds.Presence.filter (fun e => decide (e.1 = op.Source)) =
        [(op.Source,
          { UserID := op.Source, UserColor := op.UserColor, CursorPos := op.CursorPos })] ∧
      r.ds.Presence.filter (fun e => decide (e.1 ≠ op.Source))
        = ds.Presence.filter (fun e => decide (e.1 ≠ op.Source)) ∧
      r.ds.CRDT = ds.CRDT ∧
      (∀ (tr2 : Transport) (op2 : Operation) (sender2 : Conn), op2.Typ = OpCursor →
        op2.Source = op.Source →
        ∃ r2, ApplyAndBroadcast tr2 r.ds op2 sender2 = some r2 ∧
          r2.ds.Presence.filter (fun e => decide (e.1 = op.Source)) =
            [(op.Source,
              { UserID := op.Source, UserColor := op2.UserColor,
                CursorPos := op2.CursorPos })] ∧
          r2.ds.Presence.filter (fun e => decide (e.1 ≠ op.Source))
            = ds.Presence.filter (fun e => decide (e.1 ≠ op.Source)))) ∧
      (∀ (tr2 : Transport) (op2 : Operation) (sender2 : Conn),
        op2.Typ = OpInsert ∨ op2.Typ = OpDelete →
        ∃ r2, ApplyAndBroadcast tr2 ds op2 sender2 = some r2 ∧
          r2.ds.Presence = ds.Presence) := by
  have hcur : ∀ (tr1 : Transport) (d : DocumentSession) (o : Operation) (s1 : Conn),
      o.Typ = OpCursor →
      ApplyAndBroadcast tr1 d o s1 =
        some { ds := { d with
                       Presence := d.Presence.store o.Source
                         { UserID := o.Source, UserColor := o.UserColor,
                           CursorPos := o.CursorPos } }
               persisted := [o]
               writes := broadcastLoop tr1 o s1 d.Connections.keys } := by
    intro tr1 d o s1 ho
    have hc : ApplyOperation d.CRDT o = some d.CRDT :=
      ApplyOperation_other_eq d.CRDT o (by rw [ho]; decide) (by rw [ho]; decide)
    rw [ApplyAndBroadcast_eq tr1 d o s1 d.CRDT hc, if_pos ho]
  constructor
  · refine ⟨_, hcur tr ds op sender h, rfl, GoMap.lookup_store_self _ _ _,
      fun u hu => GoMap.lookup_store_other _ _ _ _ hu, GoMap.store_entries_of_key _ _ _,
      GoMap.store_entries_of_others _ _ _, rfl, ?_⟩
    intro tr2 op2 sender2 h2 hsrc
    refine ⟨_, hcur tr2 _ op2 sender2 h2, ?_, ?_⟩
    · dsimp only
      rw [hsrc]
      exact GoMap.store_entries_of_key _ _ _
    · dsimp only
      rw [hsrc, GoMap.store_entries_of_others, GoMap.store_entries_of_others]
  · intro tr2 op2 sender2 h2
    have hne : op2.Typ ≠ OpCursor := by
      rcases h2 with h2 | h2 <;> rw [h2] <;> decide
    obtain ⟨c, hc⟩ := ApplyOperation_returns ds.CRDT op2
    refine ⟨_, ApplyAndBroadcast_eq tr2 ds op2 sender2 c hc, ?_⟩
    rw [if_neg hne]

/-- A cursor update of `"alice"`. -/
def sampleCursor : Operation :=
  { Typ := OpCursor, DocID := "doc", Position := 0, Value := "", OperationID := "op-9",
    Source := "alice", Timestamp := 9, CursorPos := 4, UserColor := "#ff0000" }

/-- C10 on a session that knows `"bob"`: the first cursor update of `"alice"`
adds her entry, keeps his and the text; her second update overwrites her
entry. -/
theorem C10_cursor_witness :
    sampleCursor.Typ = OpCursor ∧
      (ApplyAndBroadcast flakyTransport sampleSession sampleCursor 1).map
          (fun r => (r.ds.Presence, GetText r.ds.CRDT))
        = some ([("alice", { UserID := "alice", UserColor := "#ff0000", CursorPos := 4 }),
                 ("bob", { UserID := "bob", UserColor := "#00ff00", CursorPos := 1 })],
                "hello") ∧
      ((ApplyAndBroadcast flakyTransport sampleSession sampleCursor 1).bind
          (fun r => ApplyAndBroadcast flakyTransport r.ds
            { sampleCursor with CursorPos := 7, UserColor := "#0000ff" } 1)).map
          (fun r => r.ds.Presence)
        = some [("alice", { UserID := "alice", UserColor := "#0000ff", CursorPos := 7 }),
                ("bob", { UserID := "bob", UserColor := "#00ff00", CursorPos := 1 })] := by
  obtain ⟨r, hr, hp, _, _, _, _, hc, _⟩ :=
    (C10_cursor_upserts_presence flakyTransport sampleSession sampleCursor 1 rfl).1
  refine ⟨rfl, ?_, by decide⟩
  rw [hr, Option.map_some', hp, hc]
  decide

end CrdtExperiment
